import Mathlib

/-!
# Verification of the large_image pyramid tile engine

A shallow embedding of the tile-addressing engine of the `large_image`
repository, covering:

* `TiffFileTileSource` (`server/tilesource/tiff.py`): pyramid construction
  (`tiffInit`), tile fetch (`getTile`), sparse synthesis from higher
  resolution levels (`getTileFromEmptyDirectory`), the I/O-failure handler
  (`getTileIOTiffException`) and the magnification metadata query
  (`getNativeMagnification`).
* `OMETiffFileTileSource` (`server/tilesource/ometiff.py`): the frame-indexed
  dispatch in `getTile`, the directory cache policy (`cacheStep`) and the
  construction-time description check (`omeDescriptionCheck`).
* `OpenslideFileTileSource` (`sources/openslide/.../__init__.py`):
  `openslideGetTile` and `openslideNativeMagnification`.

Modelling conventions:

* Raster data is a provenance tree `Pix`: a raw backend block, a blank
  canvas, or the image operations the engine performs (`paste`, `crop`,
  `resized`).  Pixel dimensions are computed from the tree.
* Python exceptions are an explicit error type `PyErr` threaded through
  `Except`; the `try/except` blocks of the source become matches on errors.
* The decode backend (`TiledTiffDirectory.getTile`, `read_region`) is a
  function parameter of the source state; its failures model
  `IOTiffException` / `InvalidOperationTiffException` / `OpenSlideError`.
* Python list indexing (which accepts negative indices) is `pyGet`.
* The mutual recursion `getTile` / `getTileFromEmptyDirectory` /
  `getTileIOTiffException` is stratified with a fuel argument; exhausted
  fuel yields the distinguished error `PyErr.fuelOut`, which never occurs
  for sufficient fuel.
* Integer arithmetic replaces the float arithmetic of the source where the
  source computes exact small powers of two: the level formula
  `ceil(log2(max(w/tw, h/th)))` becomes the least exponent test
  `levelSearch`, and the float comparison against
  `maxX = 2.0 ** (z + 1 - levels) * sizeX / tileWidth` becomes the exact
  integer inequality `skipSub`.  `x / 2` on tile coordinates is floor
  division as in Python 2, where this code ran.
* `methodcache` memoisation and the `format` bookkeeping (JPEG vs
  `TILE_FORMAT_PIL`) do not change returned values and are dropped.
-/

/-- Raster data with provenance: a raw backend block (directory number, tile
coordinates and pixel dimensions), a blank RGBA canvas (`PIL.Image.new`), or
an image operation applied by the engine. -/
inductive Pix where
  | raw (dirnum x y w h : Nat)
  | blank (w h : Nat)
  | paste (canvas sub : Pix) (ox oy : Nat)
  | crop (p : Pix) (left upper right lower : Nat)
  | resized (p : Pix) (w h : Nat)
deriving DecidableEq, Repr

/-- Pixel width of a raster, following PIL semantics of each operation. -/
def Pix.width : Pix → Nat
  | .raw _ _ _ w _ => w
  | .blank w _ => w
  | .paste c _ _ _ => c.width
  | .crop _ l _ r _ => r - l
  | .resized _ w _ => w

/-- Pixel height of a raster, following PIL semantics of each operation. -/
def Pix.height : Pix → Nat
  | .raw _ _ _ _ h => h
  | .blank _ h => h
  | .paste c _ _ _ => c.height
  | .crop _ _ t _ b => b - t
  | .resized _ _ h => h

/-- The Python exceptions the engine raises or catches. -/
inductive PyErr where
  | indexError
  | ioTiff (msg : String)
  | invalidOpTiff (msg : String)
  | tileSource (msg : String)
  | attrErr (msg : String)
  | fuelOut
deriving DecidableEq, Repr

/-- Result of a backend `TiledTiffDirectory.getTile` call. -/
inductive BRes where
  | ok (t : Pix)
  | ioErr (msg : String)
  | invalidOp (msg : String)
deriving DecidableEq, Repr

/-- The frame-indexed (OME) data attached to a source: `_omeLevels` (per
pyramid level, `none` for an absent level, or the list of IFD directory
numbers indexed by frame) and `frameCount = len(self._omebase[TiffData])`. -/
structure OmeData where
  omeLevels : List (Option (List Nat))
  frameCount : Nat

/-- State of a tile source after construction.  `tiffDirectories` holds the
backend directory number per pyramid level (`none` marks an absent level);
`backend dirnum x y` models `TiledTiffDirectory.getTile(x, y)` on directory
`dirnum`.  `ome = some o` makes this an `OMETiffFileTileSource`. -/
structure Source where
  tiffDirectories : List (Option Nat)
  tileWidth : Nat
  tileHeight : Nat
  sizeX : Nat
  sizeY : Nat
  backend : Nat → Nat → Nat → BRes
  ome : Option OmeData

/-- The field levels: `self.levels = len(self._tiffDirectories)` as set by `__init__`. -/
def Source.levels (src : Source) : Nat := src.tiffDirectories.length

/-- Python list indexing `l[i]`: negative indices count from the end; an
out-of-range index is `none` (an `IndexError`). -/
def pyGet (l : List α) (i : Int) : Option α :=
  if 0 ≤ i then l.get? i.toNat
  else if 0 ≤ i + l.length then l.get? (i + l.length).toNat else none

/-- Modelled from the spec: `_outputTile` lives in the missing base module
(`server/tilesource/base.py`).  Per the spec, `getTile` returns the tile
itself, exactly `tileWidth`-by-`tileHeight` pixels, so the output step is the
identity on the raster. -/
def outputTile (t : Pix) : Pix := t

/-- The upward walk of `getTileFromEmptyDirectory`:
`scale = 1; while dirs[z] is None: scale *= 2; z += 1`, returning the found
level and scale, or `none` for the `IndexError` of running past the end. -/
def findPopulated (dirs : List (Option Nat)) : Nat → Int → Nat → Option (Int × Nat)
  | 0, _, _ => none
  | fuel + 1, z, scale =>
    match pyGet dirs z with
    | none => none
    | some (some _) => some (z, scale)
    | some none => findPopulated dirs fuel (z + 1) (scale * 2)

/-- Enough fuel for the upward walk to reach the end of the directory list
from start level `z`. -/
def walkFuel (dirs : List (Option Nat)) (z : Int) : Nat :=
  dirs.length + z.natAbs + 1

/-- The sub-tile skip test of `getTileFromEmptyDirectory`: coordinate `v`
lies at or beyond `maxV = 2.0 ** (zFound + 1 - levels) * size / tile`,
written exactly as `size ≤ v * tile * 2 ^ (levels - 1 - zFound)`. -/
def skipSub (levels : Nat) (zFound : Int) (v size tile : Nat) : Prop :=
  size ≤ v * tile * 2 ^ ((levels : Int) - 1 - zFound).toNat

instance (levels : Nat) (zFound : Int) (v size tile : Nat) :
    Decidable (skipSub levels zFound v size tile) := by
  unfold skipSub; infer_instance

/-- The signature of a recursive tile fetch, used to tie the knot between
`getTile`, `getTileFromEmptyDirectory` and `getTileIOTiffException`:
arguments are x, y, z, pilImageAllowed, sparseFallback, frame. -/
abbrev RecFetch := Nat → Nat → Int → Bool → Bool → Option Int → Except PyErr Pix

/-- The method `TiffFileTileSource.getTileIOTiffException`: when `sparseFallback` is set
and `z` is truthy (nonzero), fetch the parent tile at `z - 1`, crop the
quadrant selected by the parities of `x` and `y`, and resize it back up to
the tile size; otherwise surface an internal I/O failure. -/
def getTileIOTiffException (rec : RecFetch) (src : Source) (x y : Nat) (z : Int)
    (sparse : Bool) (excMsg : String) (frame : Option Int) : Except PyErr Pix :=
  if sparse ∧ z ≠ 0 then
    match rec (x / 2) (y / 2) (z - 1) true sparse frame with
    | .error e => .error e
    | .ok img =>
      .ok (outputTile (((img.crop
        (if x % 2 = 1 then src.tileWidth / 2 else 0)
        (if y % 2 = 1 then src.tileHeight / 2 else 0)
        (if x % 2 = 1 then src.tileWidth else src.tileWidth / 2)
        (if y % 2 = 1 then src.tileHeight else src.tileHeight / 2))).resized
          src.tileWidth src.tileHeight))
  else .error (.tileSource ("Internal I/O failure: " ++ excMsg))

/-- One sub-tile step of the compositing loop in
`getTileFromEmptyDirectory`: skip sub-fetches beyond the image extent, else
fetch the sub-tile at the populated level and paste it onto the canvas. -/
def pasteStep (rec : RecFetch) (src : Source) (x y : Nat) (zF : Int)
    (scale : Nat) (frame : Option Int) (newX newY : Nat)
    (acc : Except PyErr Pix) : Except PyErr Pix :=
  if (newX ≠ 0 ∨ newY ≠ 0) ∧
      (skipSub src.levels zF (x * scale + newX) src.sizeX src.tileWidth ∨
        skipSub src.levels zF (y * scale + newY) src.sizeY src.tileHeight) then
    acc
  else
    match acc with
    | .error e => .error e
    | .ok canvas =>
      match rec (x * scale + newX) (y * scale + newY) zF true true frame with
      | .error e => .error e
      | .ok sub =>
        .ok (canvas.paste sub (newX * src.tileWidth) (newY * src.tileHeight))

/-- The method `TiffFileTileSource.getTileFromEmptyDirectory`: walk up to the nearest
populated level, composite the covering `scale`-by-`scale` block of tiles
onto a `(tileWidth * scale, tileHeight * scale)` canvas, and resample down
to `(tileWidth, tileHeight)` (`PIL.Image.LANCZOS`). -/
def getTileFromEmptyDirectory (rec : RecFetch) (src : Source) (x y : Nat)
    (z : Int) (frame : Option Int) : Except PyErr Pix :=
  match findPopulated src.tiffDirectories (walkFuel src.tiffDirectories z) z 1 with
  | none => .error .indexError
  | some (zF, scale) =>
    match (List.range scale).foldl (fun accX newX =>
        (List.range scale).foldl (fun acc newY =>
          pasteStep rec src x y zF scale frame newX newY acc) accX)
        (.ok (.blank (src.tileWidth * scale) (src.tileHeight * scale))) with
    | .error e => .error e
    | .ok result => .ok (result.resized src.tileWidth src.tileHeight)

/-- The `except` clauses of `TiffFileTileSource.getTile`: `IndexError`
becomes "z layer does not exist", `InvalidOperationTiffException` is
re-raised as a `TileSourceException`, and `IOTiffException` is routed to
`getTileIOTiffException`.  Other outcomes pass through. -/
def tiffCatch (rec : RecFetch) (src : Source) (x y : Nat) (z : Int)
    (sparse : Bool) (frame : Option Int) :
    Except PyErr Pix → Except PyErr Pix
  | .error .indexError => .error (.tileSource "z layer does not exist")
  | .error (.invalidOpTiff m) => .error (.tileSource m)
  | .error (.ioTiff m) => getTileIOTiffException rec src x y z sparse m frame
  | r => r

/-- The `try` block of `TiffFileTileSource.getTile`: an absent directory
raises `IOTiffException` when `sparseFallback` is set and is otherwise
synthesized by `getTileFromEmptyDirectory`; a populated directory is fetched
from the backend. -/
def tiffAttempt (rec : RecFetch) (src : Source) (x y : Nat) (z : Int)
    (sparse : Bool) (frame : Option Int) : Except PyErr Pix :=
  match pyGet src.tiffDirectories z with
  | none => .error .indexError
  | some none =>
    if sparse then .error (.ioTiff ("Missing z level " ++ toString z))
    else
      match getTileFromEmptyDirectory rec src x y z frame with
      | .error e => .error e
      | .ok t => .ok (outputTile t)
  | some (some dirnum) =>
    match src.backend dirnum x y with
    | .ok t => .ok (outputTile t)
    | .invalidOp m => .error (.invalidOpTiff m)
    | .ioErr m => .error (.ioTiff m)

/-- The method `TiffFileTileSource.getTile`: the `try` body wrapped in its handlers. -/
def tiffBody (rec : RecFetch) (src : Source) (x y : Nat) (z : Int)
    (sparse : Bool) (frame : Option Int) : Except PyErr Pix :=
  tiffCatch rec src x y z sparse frame (tiffAttempt rec src x y z sparse frame)

/-- The public tile fetch, with dynamic dispatch: an `OMETiffFileTileSource`
(`ome = some o`) first runs the frame-indexed dispatch of
`OMETiffFileTileSource.getTile` -- delegating to the superclass body when the
level is out of range, the level has no frame mapping, or the frame is
absent or zero -- and otherwise validates the frame and fetches the
frame-specific directory; a plain `TiffFileTileSource` runs the superclass
body directly.  Fuel bounds the re-entrant recursion. -/
def getTile : Nat → Source → RecFetch
  | 0, _, _, _, _, _, _, _ => .error .fuelOut
  | fuel + 1, src, x, y, z, _pil, sparse, frame =>
    match src.ome with
    | none => tiffBody (getTile fuel src) src x y z sparse frame
    | some o =>
      if z < 0 ∨ (o.omeLevels.length : Int) ≤ z ∨ pyGet o.omeLevels z = some none ∨
          frame = none ∨ frame = some 0 then
        tiffBody (getTile fuel src) src x y z sparse frame
      else
        match frame with
        | none => .error .fuelOut
        | some f =>
          if f < 0 ∨ (o.frameCount : Int) ≤ f then
            .error (.tileSource "Frame does not exist")
          else
            match pyGet o.omeLevels z with
            | some (some ifds) =>
              match ifds.get? f.toNat with
              | none => .error .indexError
              | some dirnum =>
                match src.backend dirnum x y with
                | .ok t => .ok (outputTile t)
                | .invalidOp m => .error (.tileSource m)
                | .ioErr m =>
                  getTileIOTiffException (getTile fuel src) src x y z sparse m frame
            | _ => .error .indexError

/-! ## Pyramid construction (`TiffFileTileSource.__init__`) -/

/-- A backend tiled TIFF directory as seen by `__init__`. -/
structure TDir where
  tileWidth : Nat
  tileHeight : Nat
  imageWidth : Nat
  imageHeight : Nat
  dirnum : Nat
deriving DecidableEq, Repr

/-- The predicate `2 ^ k` tiles suffice in both axes; the tile level of the
source is the least such `k` (this is `ceil(log2(max(w/tw, h/th)))`
whenever that quantity is nonnegative). -/
def levelPred (w h tw th k : Nat) : Prop := w ≤ 2 ^ k * tw ∧ h ≤ 2 ^ k * th

instance (w h tw th k : Nat) : Decidable (levelPred w h tw th k) := by
  unfold levelPred; infer_instance

/-- Linear search for the least level satisfying `levelPred`, bounded by
fuel. -/
def levelSearch (w h tw th : Nat) : Nat → Nat → Nat
  | 0, k => k
  | fuel + 1, k =>
    if levelPred w h tw th k then k else levelSearch w h tw th fuel (k + 1)

/-- The level formula `int(math.ceil(math.log(max(w / tw, h / th)) / math.log(2)))`
clamped below at 0: the least `k` with `w ≤ 2 ^ k * tw` and
`h ≤ 2 ^ k * th`. -/
def tileLevel (td : TDir) : Nat :=
  levelSearch td.imageWidth td.imageHeight td.tileWidth td.tileHeight
    (td.imageWidth + td.imageHeight) 0

/-- The float level of the source is nonnegative (`level < 0` fails exactly
when `max(w / tw, h / th) ≤ 1 / 2`). -/
def levelNonNegative (td : TDir) : Prop :=
  ¬(2 * td.imageWidth ≤ td.tileWidth ∧ 2 * td.imageHeight ≤ td.tileHeight)

instance (td : TDir) : Decidable (levelNonNegative td) := by
  unfold levelNonNegative; infer_instance

/-- One entry of `alldir`: the sort key
`(tileArea, level, pixelArea, directoryNum)` plus the directory itself. -/
structure CatEntry where
  tileArea : Nat
  level : Nat
  pixelArea : Nat
  dirnum : Nat
  td : TDir
deriving DecidableEq, Repr

/-- The Directory Catalog of `__init__` (lines 97-108 of `tiff.py`): keep
tiled directories (`tileWidth` and `tileHeight` nonzero) whose level is
nonnegative, keyed for sorting.  Input is the stream of directories that
opened successfully as tiled. -/
def tiffCatalog (tds : List TDir) : List CatEntry :=
  tds.filterMap fun td =>
    if td.tileWidth = 0 ∨ td.tileHeight = 0 then none
    else if levelNonNegative td then
      some ⟨td.tileWidth * td.tileHeight, tileLevel td,
        td.imageWidth * td.imageHeight, td.dirnum, td⟩
    else none

/-- Strict lexicographic order on the sort key of `alldir.sort()`.  The
directory number makes keys unique, so the sorted list is the same one
Python produces. -/
def keyLT (a b : CatEntry) : Prop :=
  a.tileArea < b.tileArea ∨ (a.tileArea = b.tileArea ∧
    (a.level < b.level ∨ (a.level = b.level ∧
      (a.pixelArea < b.pixelArea ∨ (a.pixelArea = b.pixelArea ∧
        a.dirnum < b.dirnum)))))

instance (a b : CatEntry) : Decidable (keyLT a b) := by
  unfold keyLT; infer_instance

/-- Insert into a list sorted by `keyLT`. -/
def insertByKey (a : CatEntry) : List CatEntry → List CatEntry
  | [] => [a]
  | b :: l => if keyLT a b then a :: b :: l else b :: insertByKey a l

/-- The sort `alldir.sort()`: ascending by `(tileArea, level, pixelArea, dirnum)`. -/
def sortByKey : List CatEntry → List CatEntry
  | [] => []
  | a :: l => insertByKey a (sortByKey l)

/-- Modelled from the spec: `nearPowerOfTwo` lives in the missing base
module (`server/tilesource/base.py`).  Per the spec, two sizes are close
when one is within a power-of-two factor of the other with one pixel of
slack: `a` is near `b / 2 ^ k` for some exponent `k`. -/
def nearPowerOfTwo (a b : Nat) : Prop :=
  ∃ k < 64, b ≤ a * 2 ^ k + 2 ^ k ∧ a * 2 ^ k ≤ b + 2 ^ k

instance (a b : Nat) : Decidable (nearPowerOfTwo a b) := by
  unfold nearPowerOfTwo; infer_instance

/-- The Pyramid Builder filter of `__init__` (lines 123-136 of `tiff.py`):
discard directories whose tile geometry differs from the canonical
(highest-resolution) directory or whose image size is neither a tile
multiple nor near a power of two of the canonical size; accepted entries
populate `directories[level] = td`, later (larger) entries overwriting. -/
def buildDirs (sorted : List CatEntry) (highest : TDir) : List (Nat × TDir) :=
  sorted.foldl (fun m e =>
    if e.td.tileWidth ≠ highest.tileWidth ∨ e.td.tileHeight ≠ highest.tileHeight then m
    else if (¬e.td.imageWidth % e.td.tileWidth = 0 ∧
              ¬nearPowerOfTwo e.td.imageWidth highest.imageWidth) ∨
            (¬e.td.imageHeight % e.td.tileHeight = 0 ∧
              ¬nearPowerOfTwo e.td.imageHeight highest.imageHeight) then m
    else if m.any (fun p => p.1 = e.level) then
      m.map fun p => if p.1 = e.level then (e.level, e.td) else p
    else m ++ [(e.level, e.td)]) []

/-- The key `max(directories.keys())`. -/
def maxKey (m : List (Nat × TDir)) : Nat := ((m.map Prod.fst).max?).getD 0

/-- The lookup `directories.get(key)`. -/
def lookupKey (m : List (Nat × TDir)) (k : Nat) : Option TDir :=
  (m.find? fun p => p.1 = k).map Prod.snd

/-- The constructor `TiffFileTileSource.__init__` from the catalog on: sort, fix the
canonical directory, filter, check the two-level requirement, and lay the
accepted directories out as a level-indexed list with `None` gaps.  Returns
the list and the canonical directory. -/
def tiffInit (tds : List TDir) : Except String (List (Option TDir) × TDir) :=
  let alldir := sortByKey (tiffCatalog tds)
  match alldir.getLast? with
  | none => .error "File did not meet requirements for tile source"
  | some hi =>
    let dirs := buildDirs alldir hi.td
    if dirs.length = 0 ∨ (dirs.length < 2 ∧ 4 < maxKey dirs + 1) then
      .error "Tiff image must have at least two levels"
    else
      .ok ((List.range (maxKey dirs + 1)).map fun k => lookupKey dirs k, hi.td)

/-! ## Directory cache (`OMETiffFileTileSource`) -/

/-- The capacity `self._directoryCacheMaxSize = max(20, len(self._omebase[TiffData]) * 3)`. -/
def directoryCacheMaxSize (frameCount : Nat) : Nat := max 20 (frameCount * 3)

/-- One access to the directory cache (lines 193-199 of `ometiff.py`),
modelled on the set of cached directory numbers: a hit opens nothing; a
miss at or above capacity clears the whole cache before opening and
inserting the one requested handle; a miss below capacity opens and
inserts.  Returns the new cache and the number of handles opened. -/
def cacheStep (maxSize : Nat) (cache : List Nat) (dirnum : Nat) : List Nat × Nat :=
  if dirnum ∈ cache then (cache, 0)
  else if maxSize ≤ cache.length then ([dirnum], 1)
  else (cache ++ [dirnum], 1)

/-- A run of cache accesses from a given state, accumulating opens. -/
def cacheRun (maxSize : Nat) (start : List Nat × Nat) (accesses : List Nat) :
    List Nat × Nat :=
  accesses.foldl (fun st d =>
    let next := cacheStep maxSize st.1 d
    (next.1, st.2 + next.2)) start

/-! ## Magnification metadata -/

/-- Python truthiness of an optional numeric value: `None`, and the number
0, are falsy. -/
def pyTruthy : Option ℚ → Bool
  | none => false
  | some q => decide (q ≠ 0)

/-- The dictionary returned by `getNativeMagnification`. -/
structure MagInfo where
  magnification : Option ℚ
  mm_x : Option ℚ
  mm_y : Option ℚ
deriving DecidableEq, Repr

/-- The method `TiffFileTileSource.getNativeMagnification`:
`mag = pixelInfo.get(magnification) or 0.01 / mm_x if mm_x else None`.
By Python precedence the conditional guards the whole expression, so a
missing (or zero) `mm_x` yields `None` even when the backend supplies a
magnification. -/
def getNativeMagnification (p : MagInfo) : MagInfo :=
  { magnification :=
      if pyTruthy p.mm_x then
        if pyTruthy p.magnification then p.magnification
        else some (1 / 100 / p.mm_x.getD 1)
      else none,
    mm_x := p.mm_x,
    mm_y := p.mm_y }

/-- The method `OpenslideFileTileSource.getNativeMagnification`: the objective power
property when readable, else `0.01 / mm_x` when `mm_x` is known
(`if mag is None and mm_x is not None`). -/
def openslideNativeMagnification (objectivePower mm_x mm_y : Option ℚ) : MagInfo :=
  { magnification :=
      match objectivePower, mm_x with
      | none, some v => some (1 / 100 / v)
      | m, _ => m,
    mm_x := mm_x,
    mm_y := mm_y }

/-! ## OME construction guard -/

/-- The parsed `_description_xml` attribute, as far as the construction
guard reads it: whether `info.get(OME)` is truthy. -/
structure DescXml where
  hasOme : Bool
deriving DecidableEq, Repr

/-- Lines 102-104 of `ometiff.py`:
`info = getattr(base, _description_xml, None)` followed by
`if not info.get(OME)`.  A directory with no parsed description makes
`info` be `None`, and `None.get` raises `AttributeError` before the
documented `TileSourceException` can be raised. -/
def omeDescriptionCheck (descriptionXml : Option DescXml) : Except PyErr Unit :=
  match descriptionXml with
  | none => .error (.attrErr "NoneType object has no attribute get")
  | some info =>
    if info.hasOme then .ok () else .error (.tileSource "Not an OME Tiff")

/-! ## Openslide tile fetch -/

/-- One precomputed entry of `self._svslevels`. -/
structure SvsLevelInfo where
  svslevel : Nat
  scale : Nat
deriving DecidableEq, Repr

/-- State of an `OpenslideFileTileSource` after construction.
`readRegion ox oy level w h` models `openslide.read_region`, which returns
a raster of exactly the requested size. -/
structure SvsSource where
  sizeX : Nat
  sizeY : Nat
  tileWidth : Nat
  tileHeight : Nat
  levels : Nat
  svslevels : List SvsLevelInfo
  readRegion : Nat → Nat → Nat → Nat → Nat → Except String Pix

/-- The method `OpenslideFileTileSource.getTile`: guard the level, check the offsets
against the image extent, read a `scale`-times larger region from the
chosen SVS level, and resize to the tile size when `scale != 1`. -/
def openslideGetTile (src : SvsSource) (x y : Nat) (z : Int) : Except PyErr Pix :=
  if z < 0 then .error (.tileSource "z layer does not exist")
  else
    match src.svslevels.get? z.toNat with
    | none => .error (.tileSource "z layer does not exist")
    | some svslevel =>
      if ¬x * src.tileWidth * 2 ^ (src.levels - 1 - z.toNat) < src.sizeX then
        .error (.tileSource "x is outside layer")
      else if ¬y * src.tileHeight * 2 ^ (src.levels - 1 - z.toNat) < src.sizeY then
        .error (.tileSource "y is outside layer")
      else
        match src.readRegion (x * src.tileWidth * 2 ^ (src.levels - 1 - z.toNat))
            (y * src.tileHeight * 2 ^ (src.levels - 1 - z.toNat)) svslevel.svslevel
            (src.tileWidth * svslevel.scale) (src.tileHeight * svslevel.scale) with
        | .error m => .error (.tileSource ("Failed to get OpenSlide region: " ++ m))
        | .ok tile =>
          .ok (outputTile (if svslevel.scale ≠ 1 then
            tile.resized src.tileWidth src.tileHeight else tile))

/-! ## Concrete example sources -/

/-- A three-level TIFF source whose middle level is absent: 16 by 16 pixels,
4 by 4 tiles, directory 10 at level 0 and directory 12 at native level 2;
the backend decodes every tile. -/
def exTiff : Source :=
  { tiffDirectories := [some 10, none, some 12],
    tileWidth := 4, tileHeight := 4, sizeX := 16, sizeY := 16,
    backend := fun d a b => .ok (.raw d a b 4 4),
    ome := none }

/-- The same pyramid as a frame-indexed (OME) source with two frames: level
1 has no frame mapping, levels 0 and 2 map each frame to its own IFD. -/
def exOme : Source :=
  { tiffDirectories := [some 20, none, some 22],
    tileWidth := 4, tileHeight := 4, sizeX := 16, sizeY := 16,
    backend := fun d a b => .ok (.raw d a b 4 4),
    ome := some ⟨[some [20, 21], none, some [22, 23]], 2⟩ }

/-- Whether an engine result is a successful tile. -/
def isOkTile : Except PyErr Pix → Bool
  | .ok _ => true
  | .error _ => false

deriving instance DecidableEq for Except

/-! ## Helper lemmas -/

/-- The search `levelSearch` returns a satisfying level whenever one lies within its
fuel. -/
theorem levelSearch_sat (w h tw th : Nat) :
    ∀ fuel k0, levelPred w h tw th (fuel + k0) →
      levelPred w h tw th (levelSearch w h tw th fuel k0) := by
  intro fuel
  induction fuel with
  | zero => intro k0 hk; simpa using hk
  | succ n ih =>
    intro k0 hk
    unfold levelSearch
    split
    · assumption
    · refine ih (k0 + 1) ?_
      have heq : n + (k0 + 1) = n + 1 + k0 := by omega
      rw [heq]
      exact hk

/-- The search `levelSearch` never skips a satisfying level: everything below its
result fails the predicate, provided everything below the start did. -/
theorem levelSearch_least (w h tw th : Nat) :
    ∀ fuel k0, (∀ j < k0, ¬levelPred w h tw th j) →
      ∀ j < levelSearch w h tw th fuel k0, ¬levelPred w h tw th j := by
  intro fuel
  induction fuel with
  | zero => intro k0 hk; simpa [levelSearch] using hk
  | succ n ih =>
    intro k0 hk
    unfold levelSearch
    split
    · exact hk
    · rename_i hnot
      refine ih (k0 + 1) ?_
      intro j hj
      rcases Nat.lt_succ_iff_lt_or_eq.mp hj with hlt | hEq
      · exact hk j hlt
      · subst hEq; exact hnot

/-- The search fuel `w + h` always suffices when the tile is nonempty. -/
theorem levelPred_at_fuel (w h tw th : Nat) (htw : 0 < tw) (hth : 0 < th) :
    levelPred w h tw th (w + h + 0) := by
  constructor
  · calc w ≤ 2 ^ w := Nat.le_of_lt (Nat.lt_two_pow w)
    _ ≤ 2 ^ (w + h + 0) := Nat.pow_le_pow_right (by omega) (by omega)
    _ = 2 ^ (w + h + 0) * 1 := by omega
    _ ≤ 2 ^ (w + h + 0) * tw := Nat.mul_le_mul_left _ htw
  · calc h ≤ 2 ^ h := Nat.le_of_lt (Nat.lt_two_pow h)
    _ ≤ 2 ^ (w + h + 0) := Nat.pow_le_pow_right (by omega) (by omega)
    _ = 2 ^ (w + h + 0) * 1 := by omega
    _ ≤ 2 ^ (w + h + 0) * th := Nat.mul_le_mul_left _ hth

/-- Every successful result of the I/O-failure handler is a resample to the
source tile size. -/
theorem getTileIOTiffException_dims (rec : RecFetch) (src : Source)
    (x y : Nat) (z : Int) (sparse : Bool) (m : String) (frame : Option Int)
    (p : Pix) (h : getTileIOTiffException rec src x y z sparse m frame = .ok p) :
    p.width = src.tileWidth ∧ p.height = src.tileHeight := by
  unfold getTileIOTiffException at h
  split at h
  · split at h
    · exact absurd h (by simp)
    · cases h; exact ⟨rfl, rfl⟩
  · exact absurd h (by simp)

/-- Every successful synthesis for an absent level is a resample to the
source tile size. -/
theorem getTileFromEmptyDirectory_dims (rec : RecFetch) (src : Source)
    (x y : Nat) (z : Int) (frame : Option Int) (p : Pix)
    (h : getTileFromEmptyDirectory rec src x y z frame = .ok p) :
    p.width = src.tileWidth ∧ p.height = src.tileHeight := by
  unfold getTileFromEmptyDirectory at h
  split at h
  · exact absurd h (by simp)
  · split at h
    · exact absurd h (by simp)
    · cases h; exact ⟨rfl, rfl⟩

/-- Every successful result of the superclass tile fetch has the source tile
size, given that the backend only decodes full tiles. -/
theorem tiffBody_dims (rec : RecFetch) (src : Source) (x y : Nat) (z : Int)
    (sparse : Bool) (frame : Option Int) (p : Pix)
    (hb : ∀ d a b t, src.backend d a b = .ok t →
      t.width = src.tileWidth ∧ t.height = src.tileHeight)
    (h : tiffBody rec src x y z sparse frame = .ok p) :
    p.width = src.tileWidth ∧ p.height = src.tileHeight := by
  unfold tiffBody tiffAttempt at h
  rcases hd : pyGet src.tiffDirectories z with _ | od
  · rw [hd] at h
    simp [tiffCatch] at h
  · rw [hd] at h
    rcases od with _ | dirnum
    · cases sparse with
      | true =>
        rw [if_pos rfl] at h
        simp only [tiffCatch] at h
        exact getTileIOTiffException_dims _ _ _ _ _ _ _ _ _ h
      | false =>
        rw [if_neg (show ¬(false = true) by decide)] at h
        rcases he : getTileFromEmptyDirectory rec src x y z frame with e | t
        · rw [he] at h
          cases e <;> simp only [tiffCatch] at h <;>
            first
            | exact getTileIOTiffException_dims _ _ _ _ _ _ _ _ _ h
            | exact absurd h (by simp)
        · rw [he] at h
          simp only [tiffCatch] at h
          cases h
          exact getTileFromEmptyDirectory_dims _ _ _ _ _ _ _ he
    · dsimp only at h
      rcases hbk : src.backend dirnum x y with t | m | m
      · rw [hbk] at h
        simp only [tiffCatch] at h
        cases h
        exact hb _ _ _ _ hbk
      · rw [hbk] at h
        simp only [tiffCatch] at h
        exact getTileIOTiffException_dims _ _ _ _ _ _ _ _ _ h
      · rw [hbk] at h
        simp [tiffCatch] at h

/-- Every successful result of the public tile fetch has the source tile
size, given that the backend only decodes full tiles. -/
theorem getTile_dims (fuel : Nat) (src : Source) (x y : Nat) (z : Int)
    (pil sparse : Bool) (frame : Option Int) (p : Pix)
    (hb : ∀ d a b t, src.backend d a b = .ok t →
      t.width = src.tileWidth ∧ t.height = src.tileHeight)
    (h : getTile fuel src x y z pil sparse frame = .ok p) :
    p.width = src.tileWidth ∧ p.height = src.tileHeight := by
  cases fuel with
  | zero => exact absurd h (by simp [getTile])
  | succ n =>
    unfold getTile at h
    cases ho : src.ome with
    | none =>
      rw [ho] at h
      exact tiffBody_dims _ _ _ _ _ _ _ _ hb h
    | some o =>
      rw [ho] at h
      dsimp only at h
      split at h
      · exact tiffBody_dims _ _ _ _ _ _ _ _ hb h
      · rcases frame with _ | f
        · exact absurd h (by simp)
        · dsimp only at h
          split at h
          · exact absurd h (by simp)
          · rcases hl : pyGet o.omeLevels z with _ | ol
            · rw [hl] at h
              exact absurd h (by simp)
            · rw [hl] at h
              rcases ol with _ | ifds
              · exact absurd h (by simp)
              · dsimp only at h
                rcases hg : ifds.get? f.toNat with _ | dirnum
                · rw [hg] at h
                  exact absurd h (by simp)
                · rw [hg] at h
                  dsimp only at h
                  rcases hbk : src.backend dirnum x y with t | m | m
                  · rw [hbk] at h
                    cases h
                    exact hb _ _ _ _ hbk
                  · rw [hbk] at h
                    exact getTileIOTiffException_dims _ _ _ _ _ _ _ _ _ h
                  · rw [hbk] at h
                    exact absurd h (by simp)

/-- C2: For every in-range (x, y, level), getTile returns a tile of exactly
tileWidth by tileHeight pixels or fails with a documented error kind, never a
partial block; in particular every tile synthesized for an absent level is
resampled to exactly (tileWidth, tileHeight) before being returned.  Stated
for the TIFF/OME engine under the backend contract that decoded blocks are
full tiles, and for the openslide source under the `read_region` contract
that the returned region has the requested size. -/
theorem c2_tile_dimensions :
    (∀ fuel (src : Source) x y (z : Int) pil sparse frame (p : Pix),
      (∀ d a b t, src.backend d a b = .ok t →
        t.width = src.tileWidth ∧ t.height = src.tileHeight) →
      getTile fuel src x y z pil sparse frame = .ok p →
      p.width = src.tileWidth ∧ p.height = src.tileHeight) ∧
    (∀ (src : SvsSource) x y (z : Int) (p : Pix),
      (∀ ox oy lvl w h t, src.readRegion ox oy lvl w h = .ok t →
        t.width = w ∧ t.height = h) →
      openslideGetTile src x y z = .ok p →
      p.width = src.tileWidth ∧ p.height = src.tileHeight) := by
  constructor
  · intro fuel src x y z pil sparse frame p hb h
    exact getTile_dims fuel src x y z pil sparse frame p hb h
  · intro src x y z p hr h
    unfold openslideGetTile at h
    split at h
    · exact absurd h (by simp)
    · rcases hg : src.svslevels.get? z.toNat with _ | svslevel
      · rw [hg] at h
        exact absurd h (by simp)
      · rw [hg] at h
        dsimp only at h
        split at h
        · exact absurd h (by simp)
        · split at h
          · exact absurd h (by simp)
          · rcases hrr : src.readRegion (x * src.tileWidth * 2 ^ (src.levels - 1 - z.toNat))
                (y * src.tileHeight * 2 ^ (src.levels - 1 - z.toNat)) svslevel.svslevel
                (src.tileWidth * svslevel.scale) (src.tileHeight * svslevel.scale)
                with m | tile
            · rw [hrr] at h
              exact absurd h (by simp)
            · rw [hrr] at h
              cases h
              rcases hr _ _ _ _ _ _ hrr with ⟨h1, h2⟩
              unfold outputTile
              by_cases hs : svslevel.scale = 1
              · rw [if_neg (by simp [hs])]
                constructor
                · rw [h1, hs, Nat.mul_one]
                · rw [h2, hs, Nat.mul_one]
              · rw [if_pos hs]
                exact ⟨rfl, rfl⟩

/-- Witness for C2 at a concrete populated request on `exTiff`. -/
theorem c2_tile_dimensions_witness :
    Pix.width (Pix.raw 12 0 0 4 4) = exTiff.tileWidth ∧
    Pix.height (Pix.raw 12 0 0 4 4) = exTiff.tileHeight :=
  c2_tile_dimensions.1 5 exTiff 0 0 2 false false none (Pix.raw 12 0 0 4 4)
    (fun _ _ _ _ ht => by cases ht; exact ⟨rfl, rfl⟩) rfl

/-- The compositing step only uses the frame by passing it to the recursive
fetch. -/
theorem pasteStep_frame_congr (rec1 rec2 : RecFetch) (src : Source)
    (x y : Nat) (zF : Int) (scale : Nat) (f1 f2 : Option Int)
    (hrec : ∀ a b c p s, rec1 a b c p s f1 = rec2 a b c p s f2)
    (newX newY : Nat) (acc : Except PyErr Pix) :
    pasteStep rec1 src x y zF scale f1 newX newY acc =
      pasteStep rec2 src x y zF scale f2 newX newY acc := by
  unfold pasteStep
  split
  · rfl
  · simp only [hrec]

/-- Sparse synthesis only uses the frame by passing it to the recursive
fetch. -/
theorem getTileFromEmptyDirectory_frame_congr (rec1 rec2 : RecFetch)
    (src : Source) (x y : Nat) (z : Int) (f1 f2 : Option Int)
    (hrec : ∀ a b c p s, rec1 a b c p s f1 = rec2 a b c p s f2) :
    getTileFromEmptyDirectory rec1 src x y z f1 =
      getTileFromEmptyDirectory rec2 src x y z f2 := by
  have hp : ∀ zF scale newX newY acc,
      pasteStep rec1 src x y zF scale f1 newX newY acc =
        pasteStep rec2 src x y zF scale f2 newX newY acc :=
    fun zF scale newX newY acc =>
      pasteStep_frame_congr rec1 rec2 src x y zF scale f1 f2 hrec newX newY acc
  unfold getTileFromEmptyDirectory
  simp only [hp]

/-- The I/O-failure handler only uses the frame by passing it to the
recursive fetch. -/
theorem getTileIOTiffException_frame_congr (rec1 rec2 : RecFetch)
    (src : Source) (x y : Nat) (z : Int) (sparse : Bool) (m : String)
    (f1 f2 : Option Int)
    (hrec : ∀ a b c p s, rec1 a b c p s f1 = rec2 a b c p s f2) :
    getTileIOTiffException rec1 src x y z sparse m f1 =
      getTileIOTiffException rec2 src x y z sparse m f2 := by
  unfold getTileIOTiffException
  split
  · simp only [hrec]
  · rfl

/-- The exception translation only uses the frame through the handler. -/
theorem tiffCatch_frame_congr (rec1 rec2 : RecFetch) (src : Source)
    (x y : Nat) (z : Int) (sparse : Bool) (f1 f2 : Option Int)
    (hrec : ∀ a b c p s, rec1 a b c p s f1 = rec2 a b c p s f2)
    (r : Except PyErr Pix) :
    tiffCatch rec1 src x y z sparse f1 r = tiffCatch rec2 src x y z sparse f2 r := by
  have hh : ∀ m, getTileIOTiffException rec1 src x y z sparse m f1 =
      getTileIOTiffException rec2 src x y z sparse m f2 :=
    fun m => getTileIOTiffException_frame_congr rec1 rec2 src x y z sparse m f1 f2 hrec
  unfold tiffCatch
  rcases r with e | t
  · cases e <;> first | rfl | simp only [hh]
  · rfl

/-- The try body only uses the frame through sparse synthesis. -/
theorem tiffAttempt_frame_congr (rec1 rec2 : RecFetch) (src : Source)
    (x y : Nat) (z : Int) (sparse : Bool) (f1 f2 : Option Int)
    (hrec : ∀ a b c p s, rec1 a b c p s f1 = rec2 a b c p s f2) :
    tiffAttempt rec1 src x y z sparse f1 = tiffAttempt rec2 src x y z sparse f2 := by
  have he := getTileFromEmptyDirectory_frame_congr rec1 rec2 src x y z f1 f2 hrec
  unfold tiffAttempt
  cases hpg : pyGet src.tiffDirectories z with
  | none => rfl
  | some od =>
    cases od with
    | none =>
      dsimp only
      split
      · rfl
      · simp only [he]
    | some dirnum => rfl

/-- The superclass tile fetch only uses the frame through its nested
calls. -/
theorem tiffBody_frame_congr (rec1 rec2 : RecFetch) (src : Source)
    (x y : Nat) (z : Int) (sparse : Bool) (f1 f2 : Option Int)
    (hrec : ∀ a b c p s, rec1 a b c p s f1 = rec2 a b c p s f2) :
    tiffBody rec1 src x y z sparse f1 = tiffBody rec2 src x y z sparse f2 := by
  unfold tiffBody
  rw [tiffAttempt_frame_congr rec1 rec2 src x y z sparse f1 f2 hrec]
  exact tiffCatch_frame_congr rec1 rec2 src x y z sparse f1 f2 hrec _

/-- C6: For a frame-indexed source and every (x, y, level), getTile with
frame = 0 returns a result identical to getTile with the frame argument
unspecified, which is the single-pyramid (frame-less) superclass fetch: the
dispatch delegates both to `TiffFileTileSource.getTile`, and every nested
re-entrant fetch preserves the frame argument, so the results are equal. -/
theorem c6_frame_zero_equivalence :
    ∀ fuel (src : Source) x y (z : Int) pil sparse,
      getTile fuel src x y z pil sparse (some 0) =
        getTile fuel src x y z pil sparse none := by
  intro fuel
  induction fuel with
  | zero => intro src x y z pil sparse; rfl
  | succ n ih =>
    intro src x y z pil sparse
    have hrec : ∀ a b c p s,
        getTile n src a b c p s (some 0) = getTile n src a b c p s none :=
      fun a b c p s => ih src a b c p s
    simp only [getTile]
    cases ho : src.ome with
    | none => exact tiffBody_frame_congr _ _ _ _ _ _ _ _ _ hrec
    | some o =>
      dsimp only
      simp only [or_true, true_or, if_true]
      exact tiffBody_frame_congr _ _ _ _ _ _ _ _ _ hrec

/-- One cache access preserves the capacity bound. -/
theorem cacheStep_length_le (m : Nat) (hm : 1 ≤ m) (cache : List Nat) (d : Nat)
    (hc : cache.length ≤ m) : (cacheStep m cache d).1.length ≤ m := by
  unfold cacheStep
  split
  · exact hc
  · split
    · simpa using hm
    · simp only [List.length_append, List.length_cons, List.length_nil]
      rename_i hmem hlen
      omega

/-- Any run of cache accesses preserves the capacity bound. -/
theorem cacheRun_length_le (m : Nat) (hm : 1 ≤ m) :
    ∀ (accs : List Nat) (cache : List Nat) (opens : Nat), cache.length ≤ m →
      (cacheRun m (cache, opens) accs).1.length ≤ m := by
  intro accs
  induction accs with
  | nil => intro cache opens hc; simpa [cacheRun] using hc
  | cons d rest ih =>
    intro cache opens hc
    show (cacheRun m ((cacheStep m cache d).1, opens + (cacheStep m cache d).2)
      rest).1.length ≤ m
    exact ih _ _ (cacheStep_length_le m hm cache d hc)

/-- C5: For a frame-indexed source the directory cache has capacity
max(20, 3 x frameCount); starting from the empty cache its size never
exceeds that capacity; and a miss at or above capacity clears the whole
cache, then opens and inserts exactly the one requested handle, leaving
exactly one entry. -/
theorem c5_directory_cache_policy :
    (∀ frameCount, directoryCacheMaxSize frameCount = max 20 (3 * frameCount)) ∧
    (∀ frameCount (accesses : List Nat),
      (cacheRun (directoryCacheMaxSize frameCount) ([], 0) accesses).1.length ≤
        directoryCacheMaxSize frameCount) ∧
    (∀ frameCount (cache : List Nat) (d : Nat), d ∉ cache →
      directoryCacheMaxSize frameCount ≤ cache.length →
      cacheStep (directoryCacheMaxSize frameCount) cache d = ([d], 1)) := by
  refine ⟨?_, ?_, ?_⟩
  · intro fc
    simp [directoryCacheMaxSize, Nat.mul_comm]
  · intro fc accs
    refine cacheRun_length_le _ ?_ accs [] 0 (by simp)
    exact le_trans (by norm_num) (Nat.le_max_left 20 (fc * 3))
  · intro fc cache d hmem hlen
    unfold cacheStep
    rw [if_neg hmem, if_pos hlen]

/-- Witness for C5: a miss on a full 20-entry cache (capacity for any frame
count up to 6 is 20) clears it and leaves one entry, one open. -/
theorem c5_directory_cache_policy_witness :
    cacheStep (directoryCacheMaxSize 0) (List.range 20) 99 = ([99], 1) :=
  c5_directory_cache_policy.2.2 0 (List.range 20) 99 (by decide) (by decide)

/-- C4 (code bug): the TIFF `getTile` does not fail for a negative level:
`self._tiffDirectories[z]` with z = -1 indexes the last (native) directory
by Python negative-index semantics and serves its tile, while the openslide
source explicitly guards every negative level with "z layer does not
exist", which is also what the spec states. -/
theorem c4_negative_level_bug :
    getTile 5 exTiff 0 0 (-1) false false none = .ok (Pix.raw 12 0 0 4 4) ∧
    (∀ (src : SvsSource) x y, openslideGetTile src x y (-1) =
      .error (.tileSource "z layer does not exist")) := by
  refine ⟨rfl, ?_⟩
  intro src x y
  unfold openslideGetTile
  rw [if_pos (by decide)]

/-- C8 (code bug): with a backend magnification of 40 and no resolution
metadata, the TIFF `getNativeMagnification` returns no magnification -- the
conditional expression guards the whole `or` -- while the openslide source
returns the backend value as documented. -/
theorem c8_magnification_bug :
    getNativeMagnification ⟨some 40, none, none⟩ =
      { magnification := none, mm_x := none, mm_y := none } ∧
    openslideNativeMagnification (some 40) none none =
      { magnification := some 40, mm_x := none, mm_y := none } :=
  ⟨rfl, rfl⟩

/-- C10: constructing the OME source on a tiled file whose first directory
has no description metadata raises an `AttributeError` from `None.get`
instead of the documented construction failure "Not an OME Tiff", which is
raised only when a description is present without an OME entry. -/
theorem c10_missing_description_attrerror :
    omeDescriptionCheck none =
      .error (.attrErr "NoneType object has no attribute get") ∧
    omeDescriptionCheck (some ⟨false⟩) =
      .error (.tileSource "Not an OME Tiff") :=
  ⟨rfl, rfl⟩

/-- A successfully constructed pyramid has its last (native) entry
populated: `directories[max(directories.keys())]` exists, and the output
list ends at that key. -/
theorem tiffInit_last_populated (tds : List TDir) (out : List (Option TDir))
    (hi : TDir) (h : tiffInit tds = .ok (out, hi)) :
    ∃ td, out.getLast? = some (some td) := by
  unfold tiffInit at h
  dsimp only at h
  rcases hl : (sortByKey (tiffCatalog tds)).getLast? with _ | e
  · rw [hl] at h
    exact absurd h (by simp)
  · rw [hl] at h
    dsimp only at h
    split at h
    · exact absurd h (by simp)
    · rename_i hcond
      simp only [Except.ok.injEq, Prod.mk.injEq] at h
      obtain ⟨h1, h2⟩ := h
      subst h1
      have hne : buildDirs (sortByKey (tiffCatalog tds)) e.td ≠ [] := by
        intro hnil
        exact hcond (Or.inl (by simp [hnil]))
      set dirs := buildDirs (sortByKey (tiffCatalog tds)) e.td with hdirs
      have hmapne : dirs.map Prod.fst ≠ [] := by
        simpa using hne
      have hmem : maxKey dirs ∈ dirs.map Prod.fst := by
        rcases hmax : (dirs.map Prod.fst).max? with _ | v
        · exact absurd (List.max?_eq_none_iff.mp hmax) hmapne
        · have hm := List.max?_mem max_choice hmax
          unfold maxKey
          rw [hmax]
          exact hm
      obtain ⟨p, hp, hpk⟩ := List.mem_map.mp hmem
      have hlk : ∃ v, lookupKey dirs (maxKey dirs) = some v := by
        unfold lookupKey
        rcases hf : dirs.find? (fun q => q.1 = maxKey dirs) with _ | q
        · exfalso
          have hall := List.find?_eq_none.mp hf p hp
          simp only [decide_eq_true_eq] at hall
          exact hall hpk
        · exact ⟨q.2, by rw [hf]; rfl⟩
      obtain ⟨v, hv⟩ := hlk
      refine ⟨v, ?_⟩
      simp [List.range_succ, List.getLast?_concat, hv]

/-- The upward walk of the sparse reconstructor terminates at a populated
level at or below the native level whenever the last entry is populated. -/
theorem findPopulated_terminates (dirs : List (Option Nat)) (d : Nat)
    (hlast : dirs.getLast? = some (some d)) :
    ∀ (fuel : Nat) (z : Int) (scale : Nat), 0 ≤ z → z < (dirs.length : Int) →
      (dirs.length : Int) - z ≤ (fuel : Int) →
      ∃ zF sc, findPopulated dirs fuel z scale = some (zF, sc) ∧
        z ≤ zF ∧ zF < (dirs.length : Int) := by
  intro fuel
  induction fuel with
  | zero =>
    intro z scale h0 hz hf
    exact absurd hz (by omega)
  | succ n ih =>
    intro z scale h0 hz hf
    have hzt : z.toNat < dirs.length := by omega
    have hg : pyGet dirs z = dirs.get? z.toNat := by
      unfold pyGet
      rw [if_pos h0]
    rcases hget : dirs.get? z.toNat with _ | elem
    · exact absurd (List.get?_eq_none.mp hget) (by omega)
    · cases elem with
      | some v =>
        refine ⟨z, scale, ?_, le_refl z, hz⟩
        unfold findPopulated
        rw [hg, hget]
      | none =>
        have hzne : z.toNat ≠ dirs.length - 1 := by
          intro heq
          have hlast2 : dirs.get? (dirs.length - 1) = some (some d) := by
            rw [List.get?_eq_getElem?, ← List.getLast?_eq_getElem?]
            exact hlast
          rw [heq, hlast2] at hget
          exact Option.noConfusion (Option.some.inj hget)
        obtain ⟨zF, sc, hfind, hle, hlt⟩ :=
          ih (z + 1) (scale * 2) (by omega) (by omega) (by omega)
        refine ⟨zF, sc, ?_, by omega, hlt⟩
        unfold findPopulated
        rw [hg, hget]
        exact hfind

/-- C3: in every successfully constructed pyramid the entry at level
levels - 1 is populated, and the upward walk of the sparse reconstructor from
any in-range level therefore finds a populated level at or below the native
level. -/
theorem c3_native_level_populated :
    (∀ (tds : List TDir) (out : List (Option TDir)) (hi : TDir),
      tiffInit tds = .ok (out, hi) → ∃ td, out.getLast? = some (some td)) ∧
    (∀ (dirs : List (Option Nat)) (d : Nat) (z : Int),
      dirs.getLast? = some (some d) → 0 ≤ z → z < (dirs.length : Int) →
      ∃ zF sc, findPopulated dirs (walkFuel dirs z) z 1 = some (zF, sc) ∧
        z ≤ zF ∧ zF < (dirs.length : Int)) := by
  constructor
  · exact tiffInit_last_populated
  · intro dirs d z hlast h0 hz
    refine findPopulated_terminates dirs d hlast (walkFuel dirs z) z 1 h0 hz ?_
    unfold walkFuel
    omega

/-- Witness for C3 on a two-directory pyramid and on the walk from the
absent level 1 of a three-level list. -/
theorem c3_native_level_populated_witness :
    (∃ td, ([some ⟨4, 4, 4, 4, 1⟩, none, some ⟨4, 4, 16, 16, 0⟩] :
      List (Option TDir)).getLast? = some (some td)) ∧
    (∃ zF sc, findPopulated [some 10, none, some 12]
        (walkFuel [some 10, none, some 12] 1) 1 1 = some (zF, sc) ∧
      (1 : Int) ≤ zF ∧
      zF < (([some 10, none, some 12] : List (Option Nat)).length : Int)) :=
  ⟨c3_native_level_populated.1 [⟨4, 4, 16, 16, 0⟩, ⟨4, 4, 4, 4, 1⟩]
      [some ⟨4, 4, 4, 4, 1⟩, none, some ⟨4, 4, 16, 16, 0⟩] ⟨4, 4, 16, 16, 0⟩ rfl,
   c3_native_level_populated.2 [some 10, none, some 12] 12 1 rfl
      (by decide) (by decide)⟩

/-- C1 counterexample: at the absent level 1 of `exTiff`, the request with
sparse fallback disallowed succeeds (synthesized from the
higher-resolution level 2) instead of failing with an I/O-class error, and
the request with sparse fallback allowed is answered by upsampling the
coarser level-0 tile, not by reconstruction from higher-resolution
levels. -/
theorem c1_sparse_flag_counterexample :
    isOkTile (getTile 10 exTiff 0 0 1 true false none) = true ∧
    getTile 10 exTiff 0 0 1 true true none =
      .ok (((Pix.raw 10 0 0 4 4).crop 0 0 2 2).resized 4 4) :=
  ⟨rfl, rfl⟩

/-- C1 amended: for a tile request at an absent level of a plain TIFF
source, disallowing sparse fallback routes the request to
`getTileFromEmptyDirectory`, which reconstructs from higher-resolution
populated levels, while allowing sparse fallback raises the internal
I/O-class error "Missing z level", whose handler upsamples the next coarser
level; at level 0 the handler instead fails with an internal I/O
failure. -/
theorem c1_sparse_flag_amended (fuel : Nat) (src : Source) (x y : Nat)
    (z : Int) (pil : Bool) (frame : Option Int)
    (ho : src.ome = none) (hz : pyGet src.tiffDirectories z = some none) :
    getTile (fuel + 1) src x y z pil false frame =
      tiffCatch (getTile fuel src) src x y z false frame
        (match getTileFromEmptyDirectory (getTile fuel src) src x y z frame with
          | .error e => .error e
          | .ok t => .ok (outputTile t)) ∧
    getTile (fuel + 1) src x y z pil true frame =
      getTileIOTiffException (getTile fuel src) src x y z true
        ("Missing z level " ++ toString z) frame ∧
    (∀ rec a b m f2, getTileIOTiffException rec src a b 0 true m f2 =
      .error (.tileSource ("Internal I/O failure: " ++ m))) := by
  refine ⟨?_, ?_, ?_⟩
  · simp only [getTile, ho]
    unfold tiffBody tiffAttempt
    rw [hz]
    dsimp only
    rw [if_neg (show ¬(false = true) by decide)]
  · simp only [getTile, ho]
    unfold tiffBody tiffAttempt
    rw [hz]
    dsimp only
    rw [if_pos rfl]
    simp only [tiffCatch]
  · intro rec a b m f2
    unfold getTileIOTiffException
    rw [if_neg (by simp)]

/-- Witness for C1 amended at the absent level 1 of `exTiff`. -/
theorem c1_sparse_flag_amended_witness :
    getTile 10 exTiff 0 0 1 true false none =
      tiffCatch (getTile 9 exTiff) exTiff 0 0 1 false none
        (match getTileFromEmptyDirectory (getTile 9 exTiff) exTiff 0 0 1 none with
          | .error e => .error e
          | .ok t => .ok (outputTile t)) ∧
    getTile 10 exTiff 0 0 1 true true none =
      getTileIOTiffException (getTile 9 exTiff) exTiff 0 0 1 true
        ("Missing z level " ++ toString (1 : Int)) none :=
  ⟨(c1_sparse_flag_amended 9 exTiff 0 0 1 true none rfl rfl).1,
   (c1_sparse_flag_amended 9 exTiff 0 0 1 true none rfl rfl).2.1⟩

/-- C7 counterexample: a tiled directory of 10 by 10 pixels with 256 by 256
tiles (smaller than half a tile in both axes) is discarded by the TIFF
catalog (`if level < 0: continue`), not kept at level 0. -/
theorem c7_catalog_counterexample :
    tiffCatalog [⟨256, 256, 10, 10, 0⟩] = [] := rfl

/-- C7 amended: a backend directory with nonzero tile dimensions is kept by
the TIFF catalog exactly when its image exceeds half a tile in at least one
axis; a kept directory is annotated with `tileLevel`, the least k such that
2 ^ k tiles cover the image in both axes (the nonnegative
ceil(log2(max(width / tileWidth, height / tileHeight)))); directories at
most half a tile in both axes are discarded. -/
theorem c7_catalog_amended (td : TDir) (htw : 0 < td.tileWidth)
    (hth : 0 < td.tileHeight) :
    (tiffCatalog [td] =
      if 2 * td.imageWidth ≤ td.tileWidth ∧ 2 * td.imageHeight ≤ td.tileHeight
      then []
      else [⟨td.tileWidth * td.tileHeight, tileLevel td,
        td.imageWidth * td.imageHeight, td.dirnum, td⟩]) ∧
    levelPred td.imageWidth td.imageHeight td.tileWidth td.tileHeight
      (tileLevel td) ∧
    (∀ j < tileLevel td,
      ¬levelPred td.imageWidth td.imageHeight td.tileWidth td.tileHeight j) := by
  refine ⟨?_, ?_, ?_⟩
  · unfold tiffCatalog
    simp only [List.filterMap_cons, List.filterMap_nil]
    rw [if_neg (by omega)]
    by_cases hsmall : 2 * td.imageWidth ≤ td.tileWidth ∧
        2 * td.imageHeight ≤ td.tileHeight
    · rw [if_neg (show ¬levelNonNegative td from not_not_intro hsmall),
        if_pos hsmall]
    · rw [if_pos (show levelNonNegative td from hsmall), if_neg hsmall]
  · unfold tileLevel
    exact levelSearch_sat _ _ _ _ _ 0
      (levelPred_at_fuel td.imageWidth td.imageHeight td.tileWidth td.tileHeight
        htw hth)
  · unfold tileLevel
    exact levelSearch_least _ _ _ _ _ 0 (by omega)

/-- Witness for C7 amended: a 16 by 16 image with 4 by 4 tiles is kept at
level 2. -/
theorem c7_catalog_amended_witness :
    (tiffCatalog [⟨4, 4, 16, 16, 7⟩] =
      if 2 * (16 : Nat) ≤ 4 ∧ 2 * (16 : Nat) ≤ 4 then []
      else [⟨16, tileLevel ⟨4, 4, 16, 16, 7⟩, 256, 7, ⟨4, 4, 16, 16, 7⟩⟩]) ∧
    levelPred 16 16 4 4 (tileLevel ⟨4, 4, 16, 16, 7⟩) ∧
    (∀ j < tileLevel ⟨4, 4, 16, 16, 7⟩, ¬levelPred 16 16 4 4 j) :=
  c7_catalog_amended ⟨4, 4, 16, 16, 7⟩ (by decide) (by decide)

/-- C9 counterexample: on `exOme` (frame count 2), requesting the absent
level 1 with the out-of-range frame 2 does fail with "Frame does not
exist": the sparse reconstruction of the degraded request re-enters the
frame-indexed dispatch at the populated level 2, which validates the
frame. -/
theorem c9_frame_validation_counterexample :
    getTile 10 exOme 0 0 1 true false (some 2) =
      .error (.tileSource "Frame does not exist") := rfl

/-- C9 amended: the frame-indexed dispatch itself never validates the frame
when the level is out of range or has no frame mapping: a level at or above
`levels` fails with "z layer does not exist" whatever the frame, and a
negative level is served through Python negative indexing with the frame
ignored.  But at an in-range level with an absent frame mapping, the
sparse reconstruction of the degraded request re-enters frame-indexed addressing
at a populated level, where an out-of-range frame does fail with "Frame
does not exist". -/
theorem c9_frame_validation_amended :
    (∀ fuel (src : Source) (o : OmeData) x y (z : Int) pil sparse
        (f : Option Int),
      src.ome = some o → src.tiffDirectories.length = o.omeLevels.length →
      (o.omeLevels.length : Int) ≤ z →
      getTile (fuel + 1) src x y z pil sparse f =
        .error (.tileSource "z layer does not exist")) ∧
    (∀ fuel (src : Source) x y (z : Int) pil sparse (f : Option Int) d t,
      z < 0 → pyGet src.tiffDirectories z = some (some d) →
      src.backend d x y = .ok t →
      getTile (fuel + 1) src x y z pil sparse f = .ok t) ∧
    getTile 10 exOme 0 0 1 true false (some 2) =
      .error (.tileSource "Frame does not exist") := by
  refine ⟨?_, ?_, rfl⟩
  · intro fuel src o x y z pil sparse f ho hlen hz
    simp only [getTile, ho]
    rw [if_pos (Or.inr (Or.inl hz))]
    unfold tiffBody tiffAttempt
    have hnone : pyGet src.tiffDirectories z = none := by
      unfold pyGet
      rw [if_pos (by omega)]
      exact List.get?_eq_none.mpr (by omega)
    rw [hnone]
    simp only [tiffCatch]
  · intro fuel src x y z pil sparse f d t hzneg hpg hbk
    cases ho : src.ome with
    | none =>
      simp only [getTile, ho]
      unfold tiffBody tiffAttempt
      rw [hpg]
      dsimp only
      rw [hbk]
      simp only [tiffCatch]
      rfl
    | some o =>
      simp only [getTile, ho]
      rw [if_pos (Or.inl hzneg)]
      unfold tiffBody tiffAttempt
      rw [hpg]
      dsimp only
      rw [hbk]
      simp only [tiffCatch]
      rfl

/-- Witness for C9 amended: on `exOme`, level 3 with frame 5 fails with the
level error, and level -1 with frame 5 is served from the native directory
with the frame ignored. -/
theorem c9_frame_validation_amended_witness :
    getTile 10 exOme 0 0 3 true false (some 5) =
      .error (.tileSource "z layer does not exist") ∧
    getTile 10 exOme 0 0 (-1) true false (some 5) = .ok (Pix.raw 22 0 0 4 4) :=
  ⟨c9_frame_validation_amended.1 9 exOme ⟨[some [20, 21], none, some [22, 23]], 2⟩
      0 0 3 true false (some 5) rfl rfl (by decide),
   c9_frame_validation_amended.2.1 9 exOme 0 0 (-1) true false (some 5) 22
      (Pix.raw 22 0 0 4 4) (by decide) rfl rfl⟩
